/-
Verification of the core behaviour of clippy.py (local AI desktop assistant):
intent detection, streaming chat client, action executor and per-turn
arbitration. All strings are modelled as `List Char`; Python string methods
(`lower`, `strip`, `rstrip`, slicing, `in`) are embedded as functions on
`List Char` restricted to their ASCII behaviour, which is all the program
relies on. Side effects (HTTP, subprocesses, the file system) are modelled
as explicit environment records supplying the outcomes the code observes.
-/
import Mathlib

set_option maxHeartbeats 1000000

/-- Abbreviation: turn a Lean string literal into the `List Char` model. -/
def sTL (x : String) : List Char := x.toList

/-- Python `str.lower()` restricted to ASCII (all table keys and patterns in
the source are ASCII). -/
def pyLower (s : List Char) : List Char := s.map Char.toLower

/-- Python `str.upper()` restricted to ASCII. -/
def pyUpper (s : List Char) : List Char := s.map Char.toUpper

/-- Python whitespace for `str.strip()` and the regex class `\s`
(ASCII subset: space, tab, newline, carriage return, vertical tab, form feed). -/
def isPyWs (c : Char) : Bool :=
  c == ' ' || c == '\t' || c == '\n' || c == '\r' || c == '\x0b' || c == '\x0c'

/-- Python `str.strip()`: drop whitespace from both ends. -/
def pyStrip (s : List Char) : List Char :=
  ((s.dropWhile isPyWs).reverse.dropWhile isPyWs).reverse

/-- Python `str.rstrip('.')`: drop trailing dots. -/
def pyRstripDot (s : List Char) : List Char :=
  (s.reverse.dropWhile (fun c => c == '.')).reverse

/-- Python `os.path.expanduser` on Windows for the forms the source uses:
a leading `~` is replaced by the home directory; anything else is unchanged. -/
def pyExpanduser (home : List Char) (p : List Char) : List Char :=
  match p with
  | '~' :: rest => home ++ rest
  | _ => p

/-- Word character for the regex `\b` boundary (ASCII subset of `\w`). -/
def isWordChar (c : Char) : Bool := c.isAlphanum || c == '_'

/-- Regex `.`: any character except newline. -/
def isDotChar (c : Char) : Bool := c != '\n'

/-
Regex abstract syntax. Every quantifier appearing in the five IntentDetector
patterns applies to a single character class (`\s`, `.`, a literal `s?`), so
stars over character classes together with ordered alternation, optionals,
one capturing group, `\b` and `$` suffice to embed the patterns exactly.
-/
inductive Rex where
  | str (cs : List Char)
  | cls (p : Char → Bool)
  | star (p : Char → Bool) (lazy : Bool)
  | alt2 (a b : Rex)
  | cat (a b : Rex)
  | opt (r : Rex)
  | grp (r : Rex)
  | wb
  | eos

/-- Last character of a consumed literal, falling back to the previous
character when the literal is empty. -/
def lastCharOf (cs : List Char) (prev : Option Char) : Option Char :=
  match cs.getLast? with
  | some c => some c
  | none => prev

/-
Backtracking matcher. `mrun r prev s` returns every way `r` can match a
prefix of `s` as `(rest, prevChar, capture)` triples, in exactly the
preference order of Python's `re` backtracking engine: alternatives left to
right, greedy quantifiers longest first, lazy quantifiers shortest first.
`prev` is the character immediately before the current position (for `\b`).
-/
def mrun : Rex → Option Char → List Char → List (List Char × Option Char × Option (List Char))
  | Rex.str cs, prev, s =>
      if cs.isPrefixOf s then [(s.drop cs.length, lastCharOf cs prev, none)] else []
  | Rex.cls p, _, s =>
      match s with
      | [] => []
      | c :: rest => if p c then [(rest, some c, none)] else []
  | Rex.star p lz, prev, s =>
      let k := (s.takeWhile p).length
      let idxs := if lz then List.range (k + 1) else (List.range (k + 1)).reverse
      idxs.map (fun i => (s.drop i, if i = 0 then prev else (s.take i).getLast?, none))
  | Rex.alt2 a b, prev, s => mrun a prev s ++ mrun b prev s
  | Rex.cat a b, prev, s =>
      (mrun a prev s).flatMap (fun r1 =>
        (mrun b r1.2.1 r1.1).map (fun r2 => (r2.1, r2.2.1, (r2.2.2 <|> r1.2.2))))
  | Rex.opt r, prev, s => mrun r prev s ++ [(s, prev, none)]
  | Rex.grp r, prev, s =>
      (mrun r prev s).map (fun r1 => (r1.1, r1.2.1, some (s.take (s.length - r1.1.length))))
  | Rex.wb, prev, s =>
      let pw := match prev with | some c => isWordChar c | none => false
      let nw := match s with | c :: _ => isWordChar c | [] => false
      if pw != nw then [(s, prev, none)] else []
  | Rex.eos, prev, s =>
      if s.isEmpty || s == ['\n'] then [(s, prev, none)] else []

/-- `re.match(r, s)` viewed as a boolean (anchored at the start). -/
def reMatches (r : Rex) (s : List Char) : Bool :=
  !(mrun r none s).isEmpty

/-- `re.match(r, s)` returning `group(1)` of the first (backtracking-order)
match; `some []` never arises for the source patterns because their group
always participates. Returns `none` when the pattern does not match. -/
def group1 (r : Rex) (s : List Char) : Option (List Char) :=
  match (mrun r none s).head? with
  | some (_, _, c) => some (c.getD [])
  | none => none

/-- `re.search(r, s)` viewed as a boolean: try every start position. -/
def reSearchAux (r : Rex) (prev : Option Char) (s : List Char) : Bool :=
  if !(mrun r prev s).isEmpty then true
  else
    match s with
    | [] => false
    | c :: rest => reSearchAux r (some c) rest

/-- `re.search(r, s)` as used for yes/no tests in the source. -/
def reSearch (r : Rex) (s : List Char) : Bool := reSearchAux r none s

/-- Ordered alternation of literal words, left to right. -/
def altStrs : List (List Char) → Rex
  | [] => Rex.str []
  | [w] => Rex.str w
  | w :: ws => Rex.alt2 (Rex.str w) (altStrs ws)

/-- `\s+` -/
def wsPlus : Rex := Rex.cat (Rex.cls isPyWs) (Rex.star isPyWs false)

/-- `\s*` -/
def wsStar : Rex := Rex.star isPyWs false

/-- greedy `.+` -/
def dotPlusG : Rex := Rex.cat (Rex.cls isDotChar) (Rex.star isDotChar false)

/-- lazy `.+?` -/
def dotPlusL : Rex := Rex.cat (Rex.cls isDotChar) (Rex.star isDotChar true)

/-- greedy `.*` -/
def dotStarG : Rex := Rex.star isDotChar false

/-- Python substring test `a in b` on the `List Char` model. -/
def inStr (a : List Char) : List Char → Bool
  | [] => a.isEmpty
  | c :: rest => a.isPrefixOf (c :: rest) || inStr a rest

/-- Right-nested concatenation of a list of regex pieces. -/
def rcat : List Rex → Rex
  | [] => Rex.str []
  | [r] => r
  | r :: rs => Rex.cat r (rcat rs)

/-
═══ IntentDetector: the five ordered pattern rules (clippy.py 721-804) ═══
-/

/-- `(?:close|kill|exit|quit|stop|terminate|end|cierra|cerrar)\s+(?:the\s+)?(?:my\s+)?(.+)` -/
def closeRex : Rex :=
  rcat [altStrs [sTL ("close"), sTL ("kill"), sTL ("exit"), sTL ("quit"), sTL ("stop"),
                 sTL ("terminate"), sTL ("end"), sTL ("cierra"), sTL ("cerrar")],
        wsPlus,
        Rex.opt (Rex.cat (Rex.str (sTL ("the"))) wsPlus),
        Rex.opt (Rex.cat (Rex.str (sTL ("my"))) wsPlus),
        Rex.grp dotPlusG]

/-- `\b(take|capture|grab|do)\b.*\b(screenshot|screen\s*shot|screen\s*cap|captura)\b` -/
def screenshotRex1 : Rex :=
  rcat [Rex.wb,
        Rex.grp (altStrs [sTL ("take"), sTL ("capture"), sTL ("grab"), sTL ("do")]),
        Rex.wb,
        dotStarG,
        Rex.wb,
        Rex.grp (Rex.alt2 (Rex.str (sTL ("screenshot")))
                 (Rex.alt2 (rcat [Rex.str (sTL ("screen")), wsStar, Rex.str (sTL ("shot"))])
                  (Rex.alt2 (rcat [Rex.str (sTL ("screen")), wsStar, Rex.str (sTL ("cap"))])
                   (Rex.str (sTL ("captura")))))),
        Rex.wb]

/-- `\bscreenshot\b` -/
def screenshotRex2 : Rex :=
  rcat [Rex.wb, Rex.str (sTL ("screenshot")), Rex.wb]

/-- `(?:google|search|search\s+for|look\s+up|busca|buscar)\s+(.+)` -/
def searchRex : Rex :=
  rcat [Rex.alt2 (Rex.str (sTL ("google")))
         (Rex.alt2 (Rex.str (sTL ("search")))
          (Rex.alt2 (rcat [Rex.str (sTL ("search")), wsPlus, Rex.str (sTL ("for"))])
           (Rex.alt2 (rcat [Rex.str (sTL ("look")), wsPlus, Rex.str (sTL ("up"))])
            (Rex.alt2 (Rex.str (sTL ("busca"))) (Rex.str (sTL ("buscar"))))))),
        wsPlus,
        Rex.grp dotPlusG]

/-- `(?:find|search|look\s+for|busca)\s+(?:my\s+)?(?:files?\s+)?(?:called\s+|named\s+)?(.+?)(?:\s+files?)?(?:\s+on\s+.+)?$` -/
def findRex : Rex :=
  rcat [Rex.alt2 (Rex.str (sTL ("find")))
         (Rex.alt2 (Rex.str (sTL ("search")))
          (Rex.alt2 (rcat [Rex.str (sTL ("look")), wsPlus, Rex.str (sTL ("for"))])
           (Rex.str (sTL ("busca"))))),
        wsPlus,
        Rex.opt (Rex.cat (Rex.str (sTL ("my"))) wsPlus),
        Rex.opt (rcat [Rex.str (sTL ("file")), Rex.opt (Rex.str (sTL ("s"))), wsPlus]),
        Rex.opt (Rex.alt2 (Rex.cat (Rex.str (sTL ("called"))) wsPlus)
                          (Rex.cat (Rex.str (sTL ("named"))) wsPlus)),
        Rex.grp dotPlusL,
        Rex.opt (rcat [wsPlus, Rex.str (sTL ("file")), Rex.opt (Rex.str (sTL ("s")))]),
        Rex.opt (rcat [wsPlus, Rex.str (sTL ("on")), wsPlus, dotPlusG]),
        Rex.eos]

/-- `\b(open|launch|go|navigate)\b` — the guard that keeps "open downloads"
from being read as a file search. -/
def openVerbGuardRex : Rex :=
  rcat [Rex.wb,
        Rex.grp (altStrs [sTL ("open"), sTL ("launch"), sTL ("go"), sTL ("navigate")]),
        Rex.wb]

/-- `\b(pdf|txt|doc|xls|ppt|jpg|png|mp3|mp4|zip|exe)\b` -/
def extKeywordRex : Rex :=
  rcat [Rex.wb,
        Rex.grp (altStrs [sTL ("pdf"), sTL ("txt"), sTL ("doc"), sTL ("xls"), sTL ("ppt"),
                          sTL ("jpg"), sTL ("png"), sTL ("mp3"), sTL ("mp4"),
                          sTL ("zip"), sTL ("exe")]),
        Rex.wb]

/-- `(?:open|launch|start|run|go\s+to|navigate\s+to|abre|abrir)\s+(?:the\s+)?(?:my\s+)?(.+)` -/
def openRex : Rex :=
  rcat [Rex.alt2 (Rex.str (sTL ("open")))
         (Rex.alt2 (Rex.str (sTL ("launch")))
          (Rex.alt2 (Rex.str (sTL ("start")))
           (Rex.alt2 (Rex.str (sTL ("run")))
            (Rex.alt2 (rcat [Rex.str (sTL ("go")), wsPlus, Rex.str (sTL ("to"))])
             (Rex.alt2 (rcat [Rex.str (sTL ("navigate")), wsPlus, Rex.str (sTL ("to"))])
              (Rex.alt2 (Rex.str (sTL ("abre"))) (Rex.str (sTL ("abrir"))))))))),
        wsPlus,
        Rex.opt (Rex.cat (Rex.str (sTL ("the"))) wsPlus),
        Rex.opt (Rex.cat (Rex.str (sTL ("my"))) wsPlus),
        Rex.grp dotPlusG]

/-- `https?://` -/
def urlRex : Rex :=
  rcat [Rex.str (sTL ("http")), Rex.opt (Rex.str (sTL ("s"))), Rex.str (sTL ("://"))]

/-- `www\.` -/
def wwwRex : Rex := Rex.str (sTL ("www."))

/-- `IntentDetector.SITES`, in source (= Python dict insertion) order. -/
def SITES : List (List Char × List Char) :=
  [(sTL ("youtube"), sTL ("https://www.youtube.com")),
   (sTL ("yt"), sTL ("https://www.youtube.com")),
   (sTL ("google"), sTL ("https://www.google.com")),
   (sTL ("gmail"), sTL ("https://mail.google.com")),
   (sTL ("github"), sTL ("https://github.com")),
   (sTL ("reddit"), sTL ("https://www.reddit.com")),
   (sTL ("twitter"), sTL ("https://twitter.com")),
   (sTL ("x"), sTL ("https://twitter.com")),
   (sTL ("facebook"), sTL ("https://www.facebook.com")),
   (sTL ("instagram"), sTL ("https://www.instagram.com")),
   (sTL ("linkedin"), sTL ("https://www.linkedin.com")),
   (sTL ("twitch"), sTL ("https://www.twitch.tv")),
   (sTL ("netflix"), sTL ("https://www.netflix.com")),
   (sTL ("amazon"), sTL ("https://www.amazon.com")),
   (sTL ("wikipedia"), sTL ("https://www.wikipedia.org")),
   (sTL ("stackoverflow"), sTL ("https://stackoverflow.com")),
   (sTL ("stack overflow"), sTL ("https://stackoverflow.com")),
   (sTL ("whatsapp web"), sTL ("https://web.whatsapp.com")),
   (sTL ("chatgpt"), sTL ("https://chat.openai.com")),
   (sTL ("spotify"), sTL ("https://open.spotify.com"))]

/-- `IntentDetector.APPS`. The source stores these in a Python `set`, whose
iteration order is unspecified; we keep the literal's order. No theorem below
depends on which of several simultaneously-matching app names is picked. -/
def APPS : List (List Char) :=
  [sTL ("chrome"), sTL ("google chrome"), sTL ("firefox"), sTL ("edge"), sTL ("brave"),
   sTL ("notepad"), sTL ("calculator"), sTL ("calc"), sTL ("explorer"), sTL ("file explorer"),
   sTL ("cmd"), sTL ("terminal"), sTL ("powershell"), sTL ("spotify"),
   sTL ("code"), sTL ("vscode"), sTL ("vs code"), sTL ("visual studio code"),
   sTL ("paint"), sTL ("word"), sTL ("excel"), sTL ("powerpoint"),
   sTL ("discord"), sTL ("slack"), sTL ("teams"), sTL ("obs"), sTL ("vlc"),
   sTL ("task manager"), sTL ("control panel"), sTL ("settings"),
   sTL ("snipping tool"), sTL ("whatsapp")]

/-- `IntentDetector.FOLDERS` as a function of the home directory
(`os.path.expanduser("~")`), in source order. -/
def FOLDERS (home : List Char) : List (List Char × List Char) :=
  [(sTL ("desktop"), home ++ sTL ("\\Desktop")),
   (sTL ("documents"), home ++ sTL ("\\Documents")),
   (sTL ("downloads"), home ++ sTL ("\\Downloads")),
   (sTL ("pictures"), home ++ sTL ("\\Pictures")),
   (sTL ("music"), home ++ sTL ("\\Music")),
   (sTL ("videos"), home ++ sTL ("\\Videos")),
   (sTL ("home"), home)]

/-- Host facts `IntentDetector.detect` consults: the home directory and the
`os.path.exists` oracle used by the path-like branch of the open rule. -/
structure DetectEnv where
  home : List Char
  pathExists : List Char → Bool

/-- `IntentDetector.detect` (clippy.py 721-804): ordered rules, first match
wins; the file-find rule falls through to the open rule when its inner
classifier rejects the captured text. -/
def detect (env : DetectEnv) (text : List Char) : List (List Char × List Char) :=
  let lower := pyStrip (pyLower text)
  match group1 closeRex lower with
  | some g =>
      let target := pyRstripDot (pyStrip g)
      match APPS.find? (fun a => inStr a target || inStr target a) with
      | some appName => [(sTL ("CLOSE_APP"), appName)]
      | none => [(sTL ("CLOSE_APP"), target)]
  | none =>
  if reSearch screenshotRex1 lower || reSearch screenshotRex2 lower then
    [(sTL ("SCREENSHOT"), [])]
  else
  match group1 searchRex lower with
  | some g => [(sTL ("SEARCH_WEB"), pyStrip g)]
  | none =>
  let findBranch : Option (List (List Char × List Char)) :=
    match group1 findRex lower with
    | some g =>
        if reSearch openVerbGuardRex lower then none
        else
          let pattern := pyStrip g
          if pattern.contains '*' || pattern.contains '.' || pattern.contains '?'
             || reSearch extKeywordRex pattern then
            let pattern' :=
              if !(pattern.contains '*') && !(pattern.contains '.') then
                sTL ("*.") ++ pattern
              else pattern
            some [(sTL ("FIND_FILE"), pattern')]
          else none
    | none => none
  match findBranch with
  | some acts => acts
  | none =>
  match group1 openRex lower with
  | some g =>
      let target := pyRstripDot (pyStrip g)
      if reMatches urlRex target || reMatches wwwRex target then
        [(sTL ("OPEN_URL"), target)]
      else
      match SITES.find? (fun p => inStr p.1 target) with
      | some p => [(sTL ("OPEN_URL"), p.2)]
      | none =>
      match (FOLDERS env.home).find? (fun p => inStr p.1 target) with
      | some p => [(sTL ("OPEN_FOLDER"), p.2)]
      | none =>
      if target.contains '\\' || target.contains '/' || target.contains ':' then
        let expanded := pyExpanduser env.home target
        if env.pathExists expanded then [(sTL ("OPEN_FOLDER"), expanded)]
        else [(sTL ("OPEN_APP"), target)]
      else
      match APPS.find? (fun a => inStr a target || inStr target a) with
      | some a => [(sTL ("OPEN_APP"), a)]
      | none => [(sTL ("OPEN_APP"), target)]
  | none => []

/-
═══ OllamaChat: conversation state and the streaming client (clippy.py 291-373) ═══
-/

/-- The fixed system prompt (clippy.py 61-115; apostrophes written `\x27`). -/
def SYSTEM_PROMPT : List Char := sTL (
  "You are Clippy, the classic Microsoft Office assistant, revived as a modern " ++
  "desktop companion. You are extremely helpful and service-oriented — you LOVE " ++
  "helping people and go out of your way to be useful. You\x27re warm, friendly, " ++
  "a little cheeky, and occasionally nostalgic about the old days in Microsoft " ++
  "Office 97. You have a great sense of humor — you drop witty one-liners and " ++
  "sometimes surprise people with unexpectedly deep or philosophical thoughts. " ++
  "Keep your answers concise and helpful. You are powered by a local Ollama model " ++
  "running on the user\x27s own hardware — no cloud, total privacy. You genuinely " ++
  "care about the person you\x27re talking to.\n\n" ++
  "=== ACTIONS ===\n" ++
  "You can perform real actions on the user\x27s computer! When the user asks you to " ++
  "do something, include ONE OR MORE action tags in your response. Always write a " ++
  "short friendly message AND the action tag(s). Available actions:\n\n" ++
  "[ACTION:OPEN_URL|<url>] — Open a website. Examples:\n" ++
  "  [ACTION:OPEN_URL|https://www.youtube.com]\n" ++
  "  [ACTION:OPEN_URL|https://www.google.com/search?q=python+tutorial]\n" ++
  "  [ACTION:OPEN_URL|https://github.com]\n\n" ++
  "[ACTION:OPEN_APP|<name>] — Open an application by name. Examples:\n" ++
  "  [ACTION:OPEN_APP|chrome]\n" ++
  "  [ACTION:OPEN_APP|notepad]\n" ++
  "  [ACTION:OPEN_APP|calculator]\n" ++
  "  [ACTION:OPEN_APP|explorer]\n" ++
  "  [ACTION:OPEN_APP|cmd]\n" ++
  "  [ACTION:OPEN_APP|spotify]\n" ++
  "  [ACTION:OPEN_APP|code] (VS Code)\n\n" ++
  "[ACTION:SEARCH_WEB|<query>] — Google search for something. Example:\n" ++
  "  [ACTION:SEARCH_WEB|best python IDE 2026]\n\n" ++
  "[ACTION:OPEN_FOLDER|<path>] — Open a folder in Explorer. Examples:\n" ++
  "  [ACTION:OPEN_FOLDER|C:\\Users]\n" ++
  "  [ACTION:OPEN_FOLDER|~\\Desktop]\n" ++
  "  [ACTION:OPEN_FOLDER|~\\Documents]\n\n" ++
  "[ACTION:FIND_FILE|<pattern>] — Search for files on Desktop/Documents. Example:\n" ++
  "  [ACTION:FIND_FILE|*.pdf]\n" ++
  "  [ACTION:FIND_FILE|report*]\n\n" ++
  "[ACTION:SYSTEM_CMD|<command>] — Run a shell command (PowerShell). Example:\n" ++
  "  [ACTION:SYSTEM_CMD|systeminfo]\n" ++
  "  [ACTION:SYSTEM_CMD|ipconfig]\n\n" ++
  "[ACTION:CLOSE_APP|<name>] — Close/kill an application by name. Examples:\n" ++
  "  [ACTION:CLOSE_APP|chrome]\n" ++
  "  [ACTION:CLOSE_APP|notepad]\n" ++
  "  [ACTION:CLOSE_APP|spotify]\n\n" ++
  "[ACTION:TYPE_TEXT|<text>] — Type text into the currently focused window.\n\n" ++
  "[ACTION:SCREENSHOT] — Take a screenshot and save to Desktop.\n\n" ++
  "RULES:\n" ++
  "- ALWAYS include the action tag when the user asks you to DO something.\n" ++
  "- Write a short friendly message BEFORE the action tag.\n" ++
  "- If unsure what the user wants, ask — don\x27t guess dangerous commands.\n" ++
  "- You can use multiple action tags in one response.\n" ++
  "- For \x27open YouTube\x27 → use OPEN_URL with https://www.youtube.com\n" ++
  "- For \x27open Chrome\x27 → use OPEN_APP with chrome\n" ++
  "- For \x27google X\x27 or \x27search for X\x27 → use SEARCH_WEB\n" ++
  "- For \x27find my files\x27 → use FIND_FILE\n" ++
  "- The action tags will be hidden from the user and executed automatically.\n")

/-- A chat message `{"role": ..., "content": ...}`. -/
structure Msg where
  role : List Char
  content : List Char
deriving DecidableEq

/-- The role strings. -/
def systemRole : List Char := sTL ("system")

def userRole : List Char := sTL ("user")

def assistantRole : List Char := sTL ("assistant")

/-- The message `OllamaChat.__init__` and `clear` install. -/
def systemMessage : Msg := ⟨systemRole, SYSTEM_PROMPT⟩

/-- `OllamaChat.clear` (clippy.py 296-297): replace the whole message list. -/
def clearConv (_msgs : List Msg) : List Msg := [systemMessage]

/-- One newline-delimited record of the streaming response body as the loop
classifies it: a blank line (skipped), a line that fails JSON decoding
(skipped), or a decoded object with optional `error`, `message.content`
(empty when absent) and `done` fields. -/
inductive Line where
  | blank
  | malformed
  | record (err : Option (List Char)) (content : List Char) (done : Bool)
deriving DecidableEq

/-- Outcome of `requests.post(... stream=True)` as the code observes it:
a raised connection error / timeout / other exception, or a response with a
status code, a body text (for the non-200 message) and the record lines. -/
inductive PostResult where
  | connError
  | timeout
  | raised (e : List Char)
  | resp (status : Nat) (body : List Char) (lines : List Line)

/-- Backend facts one `stream` call observes: the liveness probe
(`OllamaManager.is_running`), the chat POST, and the installed-model list
(`OllamaManager.list_models`, queried in the 404 branch). -/
structure StreamEnv where
  probeOk : Bool
  post : PostResult
  models : List (List Char)

/-- How the record loop exited. -/
inductive LoopExit where
  | cancelled
  | errored (e : List Char)
  | finished
  | exhausted
deriving DecidableEq

/-- The record loop (clippy.py 341-358). `cancel i` is the value of
`cancel.is_set()` polled at the top of iteration `i`; `acc` accumulates
`full`, `chunks` the `on_chunk` deliveries, in order. -/
def runLoop (cancel : Nat → Bool) (i : Nat) (ls : List Line)
    (acc chunks : List (List Char)) : List (List Char) × List (List Char) × LoopExit :=
  match ls with
  | [] => (acc, chunks, LoopExit.exhausted)
  | l :: rest =>
    if cancel i then (acc, chunks, LoopExit.cancelled)
    else
      match l with
      | Line.blank => runLoop cancel (i + 1) rest acc chunks
      | Line.malformed => runLoop cancel (i + 1) rest acc chunks
      | Line.record err content done =>
        match err with
        | some e => (acc, chunks, LoopExit.errored (sTL ("❌ ") ++ e))
        | none =>
          let acc' := if content.isEmpty then acc else acc ++ [content]
          let chunks' := if content.isEmpty then chunks else chunks ++ [content]
          if done then (acc', chunks', LoopExit.finished)
          else runLoop cancel (i + 1) rest acc' chunks'

/-- The terminal callback a `stream` call fires: `on_done`, `on_error` with a
message, or `on_model_not_found` with the model list. -/
inductive Terminal where
  | done
  | error (e : List Char)
  | modelNotFound (ms : List (List Char))
deriving DecidableEq

/-- `if self.messages and self.messages[-1]["role"] == "user": self.messages.pop()`
(clippy.py 331-332). -/
def popLastIfUser (ms : List Msg) : List Msg :=
  match ms.getLast? with
  | some m => if m.role = userRole then ms.dropLast else ms
  | none => ms

/-- Error message for a missing configuration. -/
def cfgErrMsg : List Char := sTL ("⚠️ Configure Ollama URL and model in Settings.")

/-- Error message for a failed liveness probe. -/
def connErrMsg (base : List Char) : List Char :=
  sTL ("❌ Can\x27t reach Ollama at ") ++ base ++
  sTL ("\n\nMake sure Ollama is running:\n  ollama serve")

/-- Error message for the 404 branch without a usable picker. -/
def modelNotFoundMsg (model : List Char) : List Char :=
  sTL ("❌ Model \x27") ++ model ++ sTL ("\x27 not found.\n\nRun: ollama pull ") ++ model

/-- Error message for a non-200, non-404 status. -/
def httpErrMsg (status : Nat) (body : List Char) : List Char :=
  sTL ("❌ Ollama HTTP ") ++ sTL (toString status) ++ sTL ("\n") ++ body.take 300

/-- `OllamaChat.stream` (clippy.py 299-373). Returns the message list after
the call, the `on_chunk` deliveries, and the terminal callback. `base` is
`settings.ollama_url.rstrip("/")`, `model` is `settings.model`,
`handlerGiven` records whether `on_model_not_found` was supplied. The user
message is appended unconditionally as the first step, exactly as in the
source. -/
def stream (base model : List Char) (env : StreamEnv) (cancel : Nat → Bool)
    (handlerGiven : Bool) (msgs : List Msg) (userText : List Char) :
    List Msg × List (List Char) × Terminal :=
  let msgs1 := msgs ++ [⟨userRole, userText⟩]
  if base.isEmpty || model.isEmpty then (msgs1, [], Terminal.error cfgErrMsg)
  else if !env.probeOk then (msgs1, [], Terminal.error (connErrMsg base))
  else
    match env.post with
    | PostResult.connError =>
        (msgs1, [], Terminal.error (sTL ("❌ Lost connection to Ollama.")))
    | PostResult.timeout =>
        (msgs1, [], Terminal.error (sTL ("⏳ Request timed out.")))
    | PostResult.raised e =>
        (msgs1, [], Terminal.error (sTL ("❌ ") ++ e))
    | PostResult.resp status body lines =>
        if status = 404 then
          if !env.models.isEmpty && handlerGiven then
            (popLastIfUser msgs1, [], Terminal.modelNotFound env.models)
          else
            (msgs1, [], Terminal.error (modelNotFoundMsg model))
        else if status ≠ 200 then
          (msgs1, [], Terminal.error (httpErrMsg status body))
        else
          match runLoop cancel 0 lines [] [] with
          | (_, chunks, LoopExit.errored e) => (msgs1, chunks, Terminal.error e)
          | (acc, chunks, _) =>
            let text := acc.flatten
            let msgs2 := if text.isEmpty then msgs1 else msgs1 ++ [⟨assistantRole, text⟩]
            (msgs2, chunks, Terminal.done)

/-
═══ ActionExecutor (clippy.py 381-662) ═══
Side effects (spawning processes, the file system, the browser) are modelled
as environment records recording what the code would observe.
-/

/-- The fixed denylist of `_system_cmd` (clippy.py 612); the fork-bomb entry
`:(){` has its brace written `\x7b`. -/
def dangerousCmds : List (List Char) :=
  [sTL ("format"), sTL ("del /"), sTL ("rm -rf"), sTL ("rmdir"), sTL ("rd /s"),
   sTL (":()\x7b"), sTL ("shutdown"), sTL ("restart")]

/-- The blocked-command message of `_system_cmd`. -/
def blockedMsg (command : List Char) : List Char :=
  sTL ("🚫 Blocked potentially dangerous command: ") ++ command

/-- Outcome of the `subprocess.run(["powershell", "-Command", command], ...)`
call: captured stdout/stderr, a timeout, or a raised exception. -/
inductive SubprocOutcome where
  | ok (stdout stderr : List Char)
  | timedOut
  | raised (e : List Char)

/-- The process-spawning oracle `_system_cmd` consults. -/
structure SysEnv where
  exec : List Char → SubprocOutcome

/-- Result of one `_system_cmd` call, instrumented with whether a subprocess
was spawned (i.e. whether `subprocess.run` was reached). -/
structure SysCmdRun where
  output : List Char
  spawned : Bool
deriving DecidableEq

/-- `ActionExecutor._system_cmd` (clippy.py 609-631): the denylist check on
the lowercased command precedes execution; Python `a or b` on strings picks
the first non-empty one. -/
def systemCmd (env : SysEnv) (command : List Char) : SysCmdRun :=
  let cmdLower := pyLower command
  if dangerousCmds.any (fun d => inStr d cmdLower) then
    ⟨blockedMsg command, false⟩
  else
    match env.exec command with
    | SubprocOutcome.ok stdout stderr =>
        let output := pyStrip (if stdout.isEmpty then stderr else stdout)
        let output' :=
          if output.length > 600 then output.take 600 ++ sTL ("\n... (truncated)")
          else output
        if output'.isEmpty then ⟨sTL ("⚡ Command executed (no output)."), true⟩
        else ⟨sTL ("⚡ Command result:\n") ++ output', true⟩
    | SubprocOutcome.timedOut =>
        ⟨sTL ("⏳ Command timed out after 15 seconds."), true⟩
    | SubprocOutcome.raised e =>
        ⟨sTL ("❌ ") ++ e, true⟩

/-- The side-effecting command handlers of `ActionExecutor`, abstracted as
oracles returning either a result string (`Except.ok`) or a raised Python
exception (`Except.error`), which the `try`/`except` in `run` catches. -/
structure ExecEnv where
  openUrl : List Char → Except (List Char) (List Char)
  openApp : List Char → Except (List Char) (List Char)
  searchWeb : List Char → Except (List Char) (List Char)
  openFolder : List Char → Except (List Char) (List Char)
  findFileH : List Char → Except (List Char) (List Char)
  systemCmdH : List Char → Except (List Char) (List Char)
  closeApp : List Char → Except (List Char) (List Char)
  screenshot : Except (List Char) (List Char)
  typeText : List Char → Except (List Char) (List Char)

/-- The unknown-action message of `run`. -/
def unknownActionMsg (cmd : List Char) : List Char :=
  sTL ("⚠️ Unknown action: ") ++ cmd

/-- The dispatch inside the `try` block of `ActionExecutor.run`
(clippy.py 424-444). -/
def runDispatch (env : ExecEnv) (cmd arg : List Char) : Except (List Char) (List Char) :=
  if cmd = sTL ("OPEN_URL") then env.openUrl arg
  else if cmd = sTL ("OPEN_APP") then env.openApp arg
  else if cmd = sTL ("SEARCH_WEB") then env.searchWeb arg
  else if cmd = sTL ("OPEN_FOLDER") then env.openFolder arg
  else if cmd = sTL ("FIND_FILE") then env.findFileH arg
  else if cmd = sTL ("SYSTEM_CMD") then env.systemCmdH arg
  else if cmd = sTL ("CLOSE_APP") then env.closeApp arg
  else if cmd = sTL ("SCREENSHOT") then env.screenshot
  else if cmd = sTL ("TYPE_TEXT") then env.typeText arg
  else Except.ok (unknownActionMsg cmd)

/-- The per-call failure message of the `except` clause in `run`. -/
def actionFailedMsg (e : List Char) : List Char :=
  sTL ("❌ Action failed: ") ++ e

/-- `ActionExecutor.run` (clippy.py 421-446): total at its interface, any
exception from a handler is converted to a failure string. -/
def runAction (env : ExecEnv) (cmd arg : List Char) : List Char :=
  match runDispatch env cmd arg with
  | Except.ok s => s
  | Except.error e => actionFailedMsg e

/-- What `_find_file` observes about one search directory:
`os.path.exists(d)` and the recursive `glob.glob` matches for the pattern. -/
structure FindDir where
  dirExists : Bool
  found : List (List Char)

/-- The three search directories of `_find_file`: Desktop, Documents,
Downloads (under the user home). -/
structure FindEnv where
  desktop : FindDir
  documents : FindDir
  downloads : FindDir

/-- The collection loop of `_find_file` (clippy.py 588-594): each existing
directory contributes its first 20 matches (`found[:20]`), and after every
directory the loop breaks once 30 or more results have accumulated. -/
def collectLoop : List FindDir → List (List Char) → List (List Char)
  | [], results => results
  | d :: rest, results =>
      let results' := if d.dirExists then results ++ d.found.take 20 else results
      if results'.length ≥ 30 then results' else collectLoop rest results'

/-- All results `_find_file` collects before formatting. -/
def collectResults (env : FindEnv) : List (List Char) :=
  collectLoop [env.desktop, env.documents, env.downloads] []

/-- `ntpath.basename`: the part after the last path separator (drive-letter
splitting of `ntpath` is not modelled; no theorem depends on it). -/
def pyBasename (f : List Char) : List Char :=
  (f.reverse.takeWhile (fun c => c != '\\' && c != '/')).reverse

/-- `ntpath.dirname`: the part before the last path separator. -/
def pyDirname (f : List Char) : List Char :=
  let bn := pyBasename f
  let head := f.take (f.length - bn.length)
  if head.length > 1 then head.dropLast else head

/-- The truncation line `\n  ... and N more.` of `_find_file`. -/
def moreLine (n : Nat) : List Char :=
  sTL ("\n  ... and ") ++ sTL (toString n) ++ sTL (" more.")

/-- `ActionExecutor._find_file` (clippy.py 580-607): formats up to 10 of the
collected results and appends the truncation line for the remainder. -/
def findFile (env : FindEnv) (pattern : List Char) : List Char :=
  let results := collectResults env
  if results.isEmpty then
    sTL ("🔍 No files matching \x27") ++ pattern ++
    sTL ("\x27 found in Desktop, Documents, or Downloads.")
  else
    let display := results.take 10
    let header := sTL ("🔍 Found ") ++ sTL (toString results.length) ++ sTL (" file(s):\n\n")
    let body := (display.map (fun f =>
      sTL ("  📄 ") ++ pyBasename f ++ sTL ("\n     ") ++ pyDirname f ++ sTL ("\n"))).flatten
    let text := header ++ body
    if results.length > 10 then text ++ moreLine (results.length - 10) else text

/-
═══ ChatWindow: per-turn arbitration (clippy.py 1140-1307) ═══
-/

/-- The literal `ACTION:` that follows `[` in a marker. -/
def actionKey : List Char := sTL ("ACTION:")

/-- `re.sub(r'\[ACTION:[^\]]*\]', '', text)`: remove every (non-overlapping,
leftmost) action marker. Fuel-driven so the kernel can evaluate it; each step
consumes at least one character, so `s.length` fuel always suffices. -/
def subActionTagsAux : Nat → List Char → List Char
  | 0, s => s
  | _ + 1, [] => []
  | fuel + 1, c :: rest =>
      if c = '[' && actionKey.isPrefixOf rest then
        let afterKey := rest.drop actionKey.length
        let inner := afterKey.takeWhile (fun x => x != ']')
        match afterKey.drop inner.length with
        | ']' :: rest2 => subActionTagsAux fuel rest2
        | _ => c :: subActionTagsAux fuel rest
      else c :: subActionTagsAux fuel rest

/-- The marker-stripping pass of `_finish_and_run_actions` (clippy.py 1286). -/
def subActionTags (s : List Char) : List Char := subActionTagsAux s.length s

/-- `re.findall(r'\[ACTION:([^\]]+)\]', text)`: the inner texts of all
markers, left to right; the captured group must be non-empty. -/
def findActionsAux : Nat → List Char → List (List Char)
  | 0, _ => []
  | _ + 1, [] => []
  | fuel + 1, c :: rest =>
      if c = '[' && actionKey.isPrefixOf rest then
        let afterKey := rest.drop actionKey.length
        let inner := afterKey.takeWhile (fun x => x != ']')
        match inner, afterKey.drop inner.length with
        | _ :: _, ']' :: rest2 => inner :: findActionsAux fuel rest2
        | _, _ => findActionsAux fuel rest
      else findActionsAux fuel rest

/-- The marker scan of `_finish_and_run_actions` (clippy.py 1291). -/
def findActions (s : List Char) : List (List Char) := findActionsAux s.length s

/-- One step of `_execute_actions` (clippy.py 1300-1303):
`action_str.split("|", 1)`, then `parts[0].strip().upper()` and
`parts[1].strip()` (empty when there is no `|`). -/
def parseAction (s : List Char) : List Char × List Char :=
  let cmdPart := s.takeWhile (fun c => c != '|')
  match s.drop cmdPart.length with
  | '|' :: argPart => (pyUpper (pyStrip cmdPart), pyStrip argPart)
  | _ => (pyUpper (pyStrip cmdPart), [])

/-- The intent-detection step of `ChatWindow._send` (clippy.py 1150-1158):
returns the `_intents_fired` flag (`bool(intents)`) and the locally fired
actions. -/
def sendIntents (env : DetectEnv) (text : List Char) :
    Bool × List (List Char × List Char) :=
  let intents := detect env text
  (!intents.isEmpty, intents)

/-- `ChatWindow._finish_and_run_actions` (clippy.py 1278-1296) on the
accumulated assistant text (the `📎  ` display prefix already removed):
returns the text the label is updated to (`none` when the stripped text is
empty and the label is left unchanged) and the AI-tag actions that are
dispatched — which is the empty list whenever `_intents_fired` is set. -/
def finishAndRunActions (intentsFired : Bool) (fullText : List Char) :
    Option (List Char) × List (List Char × List Char) :=
  let clean := pyStrip (subActionTags fullText)
  let displayed := if clean.isEmpty then none else some clean
  let acts := if intentsFired then [] else (findActions fullText).map parseAction
  (displayed, acts)

/-
═══ Theorems ═══
-/

/-- A concrete detector environment used by witnesses: some home directory,
nothing exists on disk. -/
def cDetectEnv : DetectEnv := ⟨sTL ("C:\\Users\\u"), fun _ => false⟩

/-- C8: `OllamaChat.clear` resets the message sequence to exactly the
one-element list holding the fixed system prompt message, and is idempotent. -/
theorem C8_clear_resets_and_idempotent (msgs : List Msg) :
    clearConv msgs = [systemMessage] ∧
    clearConv (clearConv msgs) = clearConv msgs :=
  ⟨rfl, rfl⟩

/-- C9: `ActionExecutor.run` is total at its interface: for every command and
argument it returns a result string, which is either the dispatched handler
result or the failure string converting the exception the handler raised;
no exception escapes. -/
theorem C9_run_total_never_throws (env : ExecEnv) (cmd arg : List Char) :
    ∃ s : List Char, runAction env cmd arg = s ∧
      (runDispatch env cmd arg = Except.ok s ∨
       ∃ e, runDispatch env cmd arg = Except.error e ∧ s = actionFailedMsg e) := by
  cases h : runDispatch env cmd arg with
  | ok s => exact ⟨s, by simp [runAction, h], Or.inl rfl⟩
  | error e => exact ⟨actionFailedMsg e, by simp [runAction, h], Or.inr ⟨e, rfl, rfl⟩⟩

/-- C4: any command containing a denylist entry as a substring of its
lowercasing is answered with the blocked-command message and no subprocess is
spawned; the check precedes any execution. -/
theorem C4_denylist_blocks_without_spawn (env : SysEnv) (command : List Char)
    (h : ∃ d ∈ dangerousCmds, inStr d (pyLower command) = true) :
    systemCmd env command = ⟨blockedMsg command, false⟩ := by
  have hany : dangerousCmds.any (fun d => inStr d (pyLower command)) = true :=
    List.any_eq_true.mpr h
  simp [systemCmd, hany]

/-- C4 witness: a mixed-case `shutdown` command is blocked. -/
theorem C4_witness :
    (∃ d ∈ dangerousCmds, inStr d (pyLower (sTL ("Please ShutDown now"))) = true) ∧
    systemCmd ⟨fun _ => SubprocOutcome.ok [] []⟩ (sTL ("Please ShutDown now"))
      = ⟨blockedMsg (sTL ("Please ShutDown now")), false⟩ :=
  ⟨by decide, C4_denylist_blocks_without_spawn _ _ (by decide)⟩

/-- C5: the four input/output equations of `IntentDetector.detect`, for any
host environment (none of these inputs reaches the branch that consults it). -/
theorem C5_detect_examples (env : DetectEnv) :
    detect env (sTL ("open youtube"))
      = [(sTL ("OPEN_URL"), sTL ("https://www.youtube.com"))] ∧
    detect env (sTL ("find pdf files"))
      = [(sTL ("FIND_FILE"), sTL ("*.pdf"))] ∧
    detect env (sTL ("take a screenshot"))
      = [(sTL ("SCREENSHOT"), sTL (""))] ∧
    detect env (sTL ("hello, how are you?")) = [] :=
  ⟨rfl, rfl, rfl, rfl⟩

/-- C6: on `"Sure! [ACTION:OPEN_URL|https://x.test]"` with no local actions
fired, the displayed text is the marker-stripped, trimmed text and exactly
one `OPEN_URL` action with argument `https://x.test` is dispatched; and in
general the marker command is the text before the first `|` (stripped,
uppercased) while the argument is everything after it up to the closing
bracket and may itself contain `|`. -/
theorem C6_tag_parsing (a b : List Char) (ha : '|' ∉ a) :
    finishAndRunActions false (sTL ("Sure! [ACTION:OPEN_URL|https://x.test]"))
      = (some (sTL ("Sure!")), [(sTL ("OPEN_URL"), sTL ("https://x.test"))]) ∧
    parseAction (a ++ '|' :: b) = (pyUpper (pyStrip a), pyStrip b) := by
  refine ⟨by decide, ?_⟩
  have ht : (a ++ '|' :: b).takeWhile (fun c => c != '|') = a := by
    induction a with
    | nil => simp [List.takeWhile]
    | cons x xs ih =>
        have hx : (x != '|') = true := by
          have hne : x ≠ '|' := fun he => ha (he ▸ List.mem_cons_self x xs)
          simpa using hne
        have hxs : '|' ∉ xs := fun hm => ha (List.mem_cons_of_mem x hm)
        simp [List.takeWhile_cons, hx, ih hxs]
  have hd : (a ++ '|' :: b).drop a.length = '|' :: b := List.drop_left a ('|' :: b)
  simp only [parseAction, ht, hd]

/-- C6 witness: the general split at a concrete marker body whose argument
contains a `|`. -/
theorem C6_witness :
    '|' ∉ sTL ("open_url ") ∧
    parseAction (sTL ("open_url ") ++ '|' :: sTL (" x|y "))
      = (pyUpper (pyStrip (sTL ("open_url "))), pyStrip (sTL (" x|y "))) :=
  ⟨by decide, (C6_tag_parsing (sTL ("open_url ")) (sTL (" x|y ")) (by decide)).2⟩

/-- C1: whenever `IntentDetector.detect` returns a non-empty action list for
a user turn, `_intents_fired` is set, and no `[ACTION:...]` markers from the
assistant reply of that turn are executed: at most one action source fires. -/
theorem C1_local_intents_preempt_ai_tags (env : DetectEnv) (text reply : List Char)
    (h : detect env text ≠ []) :
    (sendIntents env text).1 = true ∧
    (finishAndRunActions (sendIntents env text).1 reply).2 = [] := by
  have h1 : (detect env text).isEmpty = false := by
    cases hd : detect env text with
    | nil => exact absurd hd h
    | cons a t => rfl
  constructor
  · simp [sendIntents, h1]
  · simp [sendIntents, h1, finishAndRunActions]

/-- C1 witness: `"open youtube"` fires a local intent and suppresses the
reply marker `[ACTION:OPEN_APP|calc]`. -/
theorem C1_witness :
    detect cDetectEnv (sTL ("open youtube")) ≠ [] ∧
    (sendIntents cDetectEnv (sTL ("open youtube"))).1 = true ∧
    (finishAndRunActions (sendIntents cDetectEnv (sTL ("open youtube"))).1
        (sTL ("On it! [ACTION:OPEN_APP|calc]"))).2 = [] :=
  ⟨by decide, C1_local_intents_preempt_ai_tags cDetectEnv _ _ (by decide)⟩

/-- The rollback of the 404 branch undoes exactly the user message that
`stream` appended as its first step. -/
theorem popLastIfUser_append (st : List Msg) (u : List Char) :
    popLastIfUser (st ++ [⟨userRole, u⟩]) = st := by
  unfold popLastIfUser
  rw [List.getLast?_concat]
  simp [List.dropLast_concat]

/-- C3 counterexample: with the liveness probe failing, `stream` reports the
connectivity error but the message list is NOT left as it was before the
call — the user message was appended before the probe ran. -/
theorem C3_counterexample :
    stream (sTL ("http://localhost:11434")) (sTL ("llama3.2"))
        ⟨false, PostResult.connError, []⟩ (fun _ => false) true
        [systemMessage] (sTL ("hello"))
      = ([systemMessage, ⟨userRole, sTL ("hello")⟩], [],
         Terminal.error (connErrMsg (sTL ("http://localhost:11434")))) ∧
    [systemMessage, ⟨userRole, sTL ("hello")⟩] ≠ [systemMessage] :=
  ⟨rfl, by simp⟩

/-- C3 amended: the user message is appended at the start of the call, before
the configuration check and the liveness probe; when the configuration check
fails (empty URL or model) the configuration error is reported, when the
probe fails the connectivity error is reported, and in both cases the
message list equals the pre-call list with the user message appended (no
rollback). -/
theorem C3_early_failure_keeps_user_message (base model : List Char)
    (env : StreamEnv) (cancel : Nat → Bool) (hg : Bool) (msgs : List Msg)
    (u : List Char) :
    (base.isEmpty = true ∨ model.isEmpty = true →
       stream base model env cancel hg msgs u
         = (msgs ++ [⟨userRole, u⟩], [], Terminal.error cfgErrMsg)) ∧
    (base.isEmpty = false → model.isEmpty = false → env.probeOk = false →
       stream base model env cancel hg msgs u
         = (msgs ++ [⟨userRole, u⟩], [], Terminal.error (connErrMsg base))) := by
  constructor
  · intro hor
    cases hor with
    | inl hbe => simp [stream, hbe]
    | inr hme => simp [stream, hme]
  · intro hb hm hp
    simp [stream, hb, hm, hp]

/-- C3 witness: the amended statement at an empty-URL configuration and at a
failing-probe environment. -/
theorem C3_witness :
    stream [] (sTL ("llama3.2")) ⟨true, PostResult.timeout, []⟩
        (fun _ => false) false [systemMessage] (sTL ("hey"))
      = ([systemMessage, ⟨userRole, sTL ("hey")⟩], [], Terminal.error cfgErrMsg) ∧
    stream (sTL ("http://h")) (sTL ("m")) ⟨false, PostResult.timeout, []⟩
        (fun _ => false) false [systemMessage] (sTL ("hey"))
      = ([systemMessage, ⟨userRole, sTL ("hey")⟩], [],
         Terminal.error (connErrMsg (sTL ("http://h")))) :=
  ⟨(C3_early_failure_keeps_user_message _ _ _ _ _ _ _).1 (Or.inl rfl),
   (C3_early_failure_keeps_user_message _ _ _ _ _ _ _).2 (by decide) (by decide) rfl⟩

/-- C7: on a 404 with a non-empty installed-model list and a supplied
handler, `stream` rolls the just-appended user message back — the state is
exactly the pre-call list — and fires the handler with the model list;
otherwise it reports the error naming the missing model and the user message
stays appended. -/
theorem C7_model_not_found_rollback (base model : List Char) (env : StreamEnv)
    (cancel : Nat → Bool) (hg : Bool) (msgs : List Msg) (u : List Char)
    (body : List Char) (lines : List Line)
    (hb : base.isEmpty = false) (hm : model.isEmpty = false)
    (hp : env.probeOk = true) (hpost : env.post = PostResult.resp 404 body lines) :
    (env.models ≠ [] → hg = true →
       stream base model env cancel hg msgs u
         = (msgs, [], Terminal.modelNotFound env.models)) ∧
    (env.models = [] ∨ hg = false →
       stream base model env cancel hg msgs u
         = (msgs ++ [⟨userRole, u⟩], [], Terminal.error (modelNotFoundMsg model))) := by
  constructor
  · intro hne hgt
    have hmod : env.models.isEmpty = false := by
      cases hms : env.models with
      | nil => exact absurd hms hne
      | cons a t => rfl
    simp [stream, hb, hm, hp, hpost, hmod, hgt, popLastIfUser_append]
  · intro hor
    cases hor with
    | inl hnil => simp [stream, hb, hm, hp, hpost, hnil]
    | inr hgf => simp [stream, hb, hm, hp, hpost, hgf]

/-- C7 witness: concrete 404 turn with one installed model and a handler. -/
theorem C7_witness :
    stream (sTL ("http://h")) (sTL ("llama3.2"))
        ⟨true, PostResult.resp 404 [] [], [sTL ("mistral")]⟩ (fun _ => false) true
        [systemMessage] (sTL ("hola"))
      = ([systemMessage], [], Terminal.modelNotFound [sTL ("mistral")]) :=
  (C7_model_not_found_rollback _ _ _ _ _ _ _ _ []
      (by decide) (by decide) rfl rfl).1 (by decide) rfl

/-- Record list and cancellation pattern of the C2 counterexample: the token
is observed set at the poll before the second record. -/
def c2Lines : List Line :=
  [Line.record none (sTL ("Hi")) false, Line.record none (sTL (" there")) false]

/-- Cancellation observed from poll 1 on. -/
def c2Cancel : Nat → Bool := fun i => decide (1 ≤ i)

/-- C2 counterexample: the token is observed set between records (the loop
exits with `cancelled`), yet `stream` still appends the accumulated
assistant text to the conversation and still fires the `on_done` terminal
callback — contradicting "no terminal callback, no assistant message". -/
theorem C2_counterexample :
    (runLoop c2Cancel 0 c2Lines [] []).2.2 = LoopExit.cancelled ∧
    stream (sTL ("http://localhost:11434")) (sTL ("llama3.2"))
        ⟨true, PostResult.resp 200 [] c2Lines, []⟩ c2Cancel true
        [systemMessage] (sTL ("hi"))
      = ([systemMessage, ⟨userRole, sTL ("hi")⟩, ⟨assistantRole, sTL ("Hi")⟩],
         [sTL ("Hi")], Terminal.done) :=
  ⟨rfl, rfl⟩

/-- C2 amended: when the cancellation token is observed set between records,
the loop stops consuming further records and no `on_error` fires from the
loop; but `on_done` IS invoked for the turn, and the text accumulated before
the cancellation (if non-empty) IS appended as an assistant message. -/
theorem C2_cancel_still_completes (base model : List Char) (env : StreamEnv)
    (cancel : Nat → Bool) (hg : Bool) (msgs : List Msg) (u body : List Char)
    (lines : List Line) (acc chunks : List (List Char))
    (hb : base.isEmpty = false) (hm : model.isEmpty = false)
    (hp : env.probeOk = true) (hpost : env.post = PostResult.resp 200 body lines)
    (hloop : runLoop cancel 0 lines [] [] = (acc, chunks, LoopExit.cancelled)) :
    stream base model env cancel hg msgs u
      = (if acc.flatten.isEmpty then msgs ++ [⟨userRole, u⟩]
         else (msgs ++ [⟨userRole, u⟩]) ++ [⟨assistantRole, acc.flatten⟩],
         chunks, Terminal.done) := by
  simp [stream, hb, hm, hp, hpost, hloop]

/-- C2 witness: cancellation observed at the very first poll completes the
turn with no chunks, no assistant message and the `on_done` callback. -/
theorem C2_witness :
    stream (sTL ("http://h")) (sTL ("m"))
        ⟨true, PostResult.resp 200 [] [Line.record none (sTL ("X")) false],
         []⟩ (fun _ => true) true [systemMessage] (sTL ("yo"))
      = ([systemMessage, ⟨userRole, sTL ("yo")⟩], [], Terminal.done) :=
  C2_cancel_still_completes _ _ _ _ _ _ _ _ _ [] []
    (by decide) (by decide) rfl rfl rfl

/-- Bound for the `_find_file` collection loop: entering an iteration with at
most 29 accumulated results (the loop only continues below 30), at most one
more directory contribution of at most 20 matches can land before the next
break check, so the final total is at most 49. -/
theorem collectLoop_length_le (dirs : List FindDir) (results : List (List Char))
    (h : results.length ≤ 29) : (collectLoop dirs results).length ≤ 49 := by
  induction dirs generalizing results with
  | nil => simp only [collectLoop]; omega
  | cons d rest ih =>
      have h20 : (if d.dirExists then results ++ d.found.take 20 else results).length
          ≤ results.length + 20 := by
        rcases Bool.eq_false_or_eq_true d.dirExists with hde | hde <;>
          simp [hde, List.length_append]
      simp only [collectLoop]
      by_cases h30 :
          (if d.dirExists then results ++ d.found.take 20 else results).length ≥ 30
      · rw [if_pos h30]; omega
      · rw [if_neg h30]; exact ih _ (by omega)

/-- The `... and N more.` tail of the truncation line is a suffix of any
text ending in that line. -/
theorem moreLine_suffix (t : List Char) (n : Nat) :
    List.IsSuffix (sTL ("... and ") ++ sTL (toString n) ++ sTL (" more.")) (t ++ moreLine n) := by
  have hsplit : sTL ("\n  ... and ") = sTL ("\n  ") ++ sTL ("... and ") := by decide
  refine ⟨t ++ sTL ("\n  "), ?_⟩
  simp [moreLine, hsplit, List.append_assoc]

/-- Environment realising the worst case of the collection loop: the first
directory contributes 20 matches (total 20, below 30, continue), the second
only 9 (total 29, still below 30, continue), the third 20 more (total 49). -/
def c10Env : FindEnv :=
  ⟨⟨true, List.replicate 25 (sTL ("C:\\u\\Desktop\\a.txt"))⟩,
   ⟨true, List.replicate 9 (sTL ("C:\\u\\Documents\\b.txt"))⟩,
   ⟨true, List.replicate 25 (sTL ("C:\\u\\Downloads\\c.txt"))⟩⟩

/-- C10 counterexample: the collected total reaches 49, refuting the claimed
bound of 40. -/
theorem C10_counterexample :
    (collectResults c10Env).length = 49 ∧ ¬ ((collectResults c10Env).length ≤ 40) := by
  decide

/-- C10 amended: the collected total never exceeds 49 (each directory
contributes at most 20 matches and the loop breaks only once 30 or more have
accumulated, so up to 29 can be present when the last directory adds its 20);
whenever more than 10 results were collected, the formatted text ends with
the `... and N more.` truncation line, `N` counting the results beyond 10. -/
theorem C10_find_file_bounds (env : FindEnv) (pattern : List Char) :
    (collectResults env).length ≤ 49 ∧
    ((collectResults env).isEmpty = false →
       findFile env pattern
         = sTL ("🔍 Found ") ++ sTL (toString (collectResults env).length)
           ++ sTL (" file(s):\n\n")
           ++ (((collectResults env).take 10).map (fun f =>
                 sTL ("  📄 ") ++ pyBasename f ++ sTL ("\n     ")
                 ++ pyDirname f ++ sTL ("\n"))).flatten
           ++ (if (collectResults env).length > 10
               then moreLine ((collectResults env).length - 10) else [])
       ∧ ((collectResults env).take 10).length ≤ 10) ∧
    ((collectResults env).length > 10 →
      List.IsSuffix
        (sTL ("... and ") ++ sTL (toString ((collectResults env).length - 10)) ++ sTL (" more."))
        (findFile env pattern)) := by
  refine ⟨collectLoop_length_le _ [] (by simp), ?_, ?_⟩
  · intro hne
    refine ⟨?_, List.length_take_le 10 (collectResults env)⟩
    by_cases h10 : (collectResults env).length > 10 <;>
      simp [findFile, hne, h10, List.append_assoc]
  · intro h10
    have hne : (collectResults env).isEmpty = false := by
      cases hc : collectResults env with
      | nil => rw [hc] at h10; simp at h10
      | cons a t => rfl
    simp only [findFile, hne, Bool.false_eq_true, if_false, if_pos h10]
    exact moreLine_suffix _ _

/-- C10 witness: a directory set yielding 12 collected results satisfies the
bound, lists at most 10 of them, and produces the `... and 2 more.` line. -/
theorem C10_witness :
    (collectResults ⟨⟨true, List.replicate 12 (sTL ("C:\\u\\Desktop\\a.txt"))⟩,
        ⟨false, []⟩, ⟨false, []⟩⟩).length ≤ 49 ∧
    ((collectResults ⟨⟨true, List.replicate 12 (sTL ("C:\\u\\Desktop\\a.txt"))⟩,
        ⟨false, []⟩, ⟨false, []⟩⟩).take 10).length ≤ 10 ∧
    List.IsSuffix
      (sTL ("... and ") ++
       sTL (toString ((collectResults ⟨⟨true, List.replicate 12 (sTL ("C:\\u\\Desktop\\a.txt"))⟩,
          ⟨false, []⟩, ⟨false, []⟩⟩).length - 10)) ++ sTL (" more."))
      (findFile ⟨⟨true, List.replicate 12 (sTL ("C:\\u\\Desktop\\a.txt"))⟩,
        ⟨false, []⟩, ⟨false, []⟩⟩ (sTL ("*.txt"))) :=
  ⟨(C10_find_file_bounds _ (sTL ("*.txt"))).1,
   ((C10_find_file_bounds _ (sTL ("*.txt"))).2.1 (by decide)).2,
   (C10_find_file_bounds _ (sTL ("*.txt"))).2.2 (by decide)⟩
